import Mathlib

/-!
Verification of the MT5 bridge (`mt5_bridge.py`, `mt5_bridge_server.py`).

The two Python files are a thin translation layer between JSON commands and
the native MetaTrader5 (`mt5`) library.  We embed them shallowly:

* Python/JSON values are modelled by the inductive `Json`.
* The native `mt5` library is an external collaborator; its behaviour is a
  parameter: the structure `MT5` records, for each native call the source
  makes, what that call returns (or, as an `Except.error`, the message of
  the exception it raises).
* Each adapter function of `mt5_bridge.py` becomes a Lean function from an
  `MT5` oracle to its returned Python value together with the trace of
  native calls it performed (`List Ev`).  A function that can let an
  exception escape (it has no internal `try/except`) returns
  `Except String Json`; a function whose whole body is wrapped in
  `try/except Exception` returns `Json` directly, its `except` branch
  appearing as the conversion of an internal `Except.error` to an error
  dict.
* Numbers (Python int/float) are modelled by `ℚ`; the code only copies and
  compares them, never computes, so this is faithful.
-/

/-- Python/JSON values as produced and consumed by both bridge files. -/
inductive Json where
  | null : Json
  | bool (b : Bool) : Json
  | num (q : ℚ) : Json
  | str (s : String) : Json
  | arr (elems : List Json) : Json
  | obj (fields : List (String × Json)) : Json

/-- Python `d[k]` / `d.get(k)` field lookup on an object, `none` when the
key is absent or the value is not a dict. -/
def Json.lookupKey : Json → String → Option Json
  | .obj fields, k => fields.lookup k
  | _, _ => none

/-- Python truthiness of a value (`if not x` in the source). -/
def Json.truthy : Json → Bool
  | .null => false
  | .bool b => b
  | .num q => q ≠ 0
  | .str s => s ≠ ""
  | .arr elems => ¬ elems.isEmpty
  | .obj fields => ¬ fields.isEmpty

/-- Truthiness of `d["success"]` as used by `main` on the connect result
(`if not connect_result["success"]`); the key is always present there. -/
def Json.getSuccessFlag (j : Json) : Bool :=
  ((j.lookupKey "success").getD .null).truthy

/-- The runtime type name Python uses in `AttributeError` messages. -/
def Json.pyTypeName : Json → String
  | .null => "NoneType"
  | .bool _ => "bool"
  | .num _ => "float"
  | .str _ => "str"
  | .arr _ => "list"
  | .obj _ => "dict"

/-- Python `str()` of a value as interpolated by f-strings in the source
(only the string case is exercised by the bridge protocol; the remaining
cases approximate Python's rendering). -/
def Json.pyStr : Json → String
  | .str s => s
  | .null => "None"
  | .bool true => "True"
  | .bool false => "False"
  | .num q => toString q
  | .arr _ => "[list]"
  | .obj _ => "[dict]"

/-- Python `data.get(k)` (default `None`): raises `AttributeError` when the
receiver is not a dict. -/
def pyDictGet (j : Json) (k : String) : Except String Json :=
  match j with
  | .obj fields => .ok ((fields.lookup k).getD .null)
  | v => .error ("'" ++ v.pyTypeName ++ "' object has no attribute 'get'")

/-- Python `data.get(k, d)` with an explicit default. -/
def pyDictGetD (j : Json) (k : String) (d : Json) : Except String Json :=
  match j with
  | .obj fields => .ok ((fields.lookup k).getD d)
  | v => .error ("'" ++ v.pyTypeName ++ "' object has no attribute 'get'")

/-- The `{"success": False, "error": msg}` dict both files build on every
failure path. -/
def errDict (msg : String) : Json :=
  .obj [("success", .bool false), ("error", .str msg)]

example : (errDict "x").getSuccessFlag = false := rfl
example : Json.lookupKey (.obj [("a", .num 1), ("b", .null)]) "b" = some .null := rfl

/-! ### Constants of the native MetaTrader5 module used by the source -/

def TRADE_ACTION_DEAL : Int := 1
def ORDER_TYPE_BUY : Int := 0
def ORDER_TYPE_SELL : Int := 1
def ORDER_TIME_GTC : Int := 0
def ORDER_FILLING_IOC : Int := 1
def TRADE_RETCODE_DONE : Int := 10009
def TIMEFRAME_M1 : Int := 1
def TIMEFRAME_M5 : Int := 5
def TIMEFRAME_M15 : Int := 15
def TIMEFRAME_H1 : Int := 16385
def TIMEFRAME_H4 : Int := 16388
def TIMEFRAME_D1 : Int := 16408

/-! ### Native result objects, one structure per shape the source reads -/

/-- Fields of `mt5.account_info()` read by the source. -/
structure Account where
  login : Int
  balance : ℚ
  equity : ℚ
  margin : ℚ
  server : String
  leverage : Int
  currency : String
deriving DecidableEq

/-- Fields of an `mt5.symbols_get()` element read by the source. -/
structure SymbolInfo where
  name : String
  description : String
  visible : Bool
  spread : Int
  volume_min : ℚ
  volume_max : ℚ
deriving DecidableEq

/-- One element of `mt5.copy_rates_from_pos(...)` (a bar). -/
structure Rate where
  time : Int
  opn : ℚ
  high : ℚ
  low : ℚ
  close : ℚ
  tick_volume : Int
  spread : Int
deriving DecidableEq

/-- Fields of `mt5.symbol_info_tick(...)` read by the source. -/
structure Tick where
  bid : ℚ
  ask : ℚ
  last : ℚ
  volume : Int
  time : Int
deriving DecidableEq

/-- Fields of an `mt5.positions_get(...)` element read by the source. -/
structure Position where
  ticket : Int
  symbol : String
  type : Int
  volume : ℚ
  price_open : ℚ
  price_current : ℚ
  profit : ℚ
  swap : ℚ
  commission : ℚ
deriving DecidableEq

/-- Fields of an `mt5.order_send(...)` result read by the source. -/
structure OrderResult where
  retcode : Int
  comment : String
  order : Int
  volume : ℚ
  price : ℚ
deriving DecidableEq

/-- The request dict passed to `mt5.order_send`.  `place_order` builds it
without a `position` key and inserts `price`/`sl`/`tp` only conditionally;
`close_position` builds it with a `position` key and none of those three.
An `Option` field set to `none` models the key being absent from the
Python dict. -/
structure TradeRequest where
  action : Int
  symbol : String
  volume : ℚ
  type : Int
  comment : String
  type_time : Int
  type_filling : Int
  price : Option ℚ := none
  sl : Option ℚ := none
  tp : Option ℚ := none
  position : Option Int := none
deriving DecidableEq

/-! ### The native-call trace and the terminal oracle -/

/-- One native `mt5` call made by the bridge, with the arguments that the
claims need to observe. -/
inductive Ev where
  | init : Ev
  | account_info : Ev
  | login (l : Int) : Ev
  | symbols_get : Ev
  | copy_rates (symbol : String) (timeframe : Int) (start : Int) (count : Int) : Ev
  | symbol_info_tick (symbol : String) : Ev
  | order_send (request : TradeRequest) : Ev
  | positions_get : Ev
  | positions_get_ticket (ticket : Int) : Ev
  | shutdown : Ev
deriving DecidableEq

/-- Behaviour of the native `mt5` module: for each call the source makes,
what it returns; `Except.error msg` models the call raising an exception
with message `msg`.  `initOk` is the boolean result of `mt5.initialize()`
and `lastError` the rendering of `mt5.last_error()` in f-strings. -/
structure MT5 where
  initOk : Bool
  lastError : String
  account_info : Option Account
  loginOk : Int → String → String → Bool
  symbols_get : Except String (Option (List SymbolInfo))
  copy_rates_from_pos : String → Int → Int → Int → Except String (Option (List Rate))
  symbol_info_tick : String → Except String (Option Tick)
  order_send : TradeRequest → Except String (Option OrderResult)
  positions_get : Except String (Option (List Position))
  positions_get_ticket : Int → Except String (Option (List Position))

/-! ### Python builtins used by the source -/

/-- Helper for `pyInStr`: scan the haystack for the needle. -/
def pyInStrGo (n : List Char) : List Char → Bool
  | [] => n.isEmpty
  | c :: rest => n.isPrefixOf (c :: rest) || pyInStrGo n rest

/-- Python `needle in hay` substring test (used for `'USD' in symbol.name`). -/
def pyInStr (needle hay : String) : Bool :=
  pyInStrGo needle.toList hay.toList

/-- Python `int(s)` on a string: decimal parse, `ValueError` otherwise
(modelled as an optional sign followed by digits). -/
def pyInt (s : String) : Except String Int :=
  match s.toInt? with
  | some n => .ok n
  | none => .error ("invalid literal for int() with base 10: '" ++ s ++ "'")

/-- Python `float(s)` on a string, modelled for plain decimal literals
`[-]digits[.digits]`; anything else is a `ValueError`. -/
def pyFloat (s : String) : Except String ℚ :=
  let core : String → Option ℚ := fun t =>
    match t.split (· = '.') with
    | [a] => (a.toNat?).map (fun n => (n : ℚ))
    | [a, b] =>
      match a.toNat?, b.toNat? with
      | some ai, some bi => some ((ai : ℚ) + (bi : ℚ) / ((10 : ℚ) ^ b.length))
      | _, _ => none
    | _ => none
  match s.toList with
  | '-' :: rest =>
    match core (String.mk rest) with
    | some q => .ok (-q)
    | none => .error ("could not convert string to float: '" ++ s ++ "'")
  | _ =>
    match core s with
    | some q => .ok q
    | none => .error ("could not convert string to float: '" ++ s ++ "'")

/-- Python `sys.argv[i]`: `IndexError` when the index is out of range. -/
def argvGet (argv : List String) (i : Nat) : Except String String :=
  match argv.get? i with
  | some s => .ok s
  | none => .error "list index out of range"

/-! ### Terminal Adapter (the module-level functions of `mt5_bridge.py`;
the methods of `MT5BridgeServer` in `mt5_bridge_server.py` are verbatim
copies of the same bodies, up to `int(...)`/`float(...)` casts of
already-numeric arguments, so one embedding serves both files) -/

/-- The account dict built by both connect functions. -/
def accountJson (a : Account) : Json :=
  .obj [("login", .num (a.login : ℚ)), ("balance", .num a.balance),
        ("equity", .num a.equity), ("margin", .num a.margin),
        ("server", .str a.server), ("leverage", .num (a.leverage : ℚ)),
        ("currency", .str a.currency)]

/-- `connect_mt5()`: initialize, fetch account info, return snapshot. -/
def connect_mt5 (M : MT5) : Json × List Ev :=
  if ¬ M.initOk then
    (errDict ("initialize() failed, error code = " ++ M.lastError), [Ev.init])
  else
    match M.account_info with
    | none => (errDict "Failed to get account info", [Ev.init, Ev.account_info])
    | some a =>
      (.obj [("success", .bool true), ("account", accountJson a)],
       [Ev.init, Ev.account_info])

/-- `connect_with_credentials(login, password, server)`.  `int(login)` can
raise (the function has no `try/except`, so the `Except.error` escapes to
the caller). -/
def connect_with_credentials (M : MT5) (login password server : String) :
    Except String Json × List Ev :=
  -- mt5.shutdown(); if not mt5.initialize(): ...
  if ¬ M.initOk then
    (.ok (errDict ("initialize() failed, error code = " ++ M.lastError)),
     [Ev.shutdown, Ev.init])
  else
    match pyInt login with
    | .error e => (.error e, [Ev.shutdown, Ev.init])
    | .ok l =>
      if ¬ M.loginOk l password server then
        (.ok (errDict ("Login failed, error code = " ++ M.lastError)),
         [Ev.shutdown, Ev.init, Ev.login l, Ev.shutdown])
      else
        match M.account_info with
        | none =>
          (.ok (errDict "Failed to get account info after login"),
           [Ev.shutdown, Ev.init, Ev.login l, Ev.account_info, Ev.shutdown])
        | some a =>
          (.ok (.obj [("success", .bool true), ("account", accountJson a)]),
           [Ev.shutdown, Ev.init, Ev.login l, Ev.account_info])

/-- The per-symbol dict built by `get_symbols`. -/
def symbolJson (s : SymbolInfo) : Json :=
  .obj [("name", .str s.name), ("description", .str s.description),
        ("spread", .num (s.spread : ℚ)), ("volume_min", .num s.volume_min),
        ("volume_max", .num s.volume_max)]

/-- `get_symbols()`: no internal `try/except`, so a raising native call
escapes (`Except.error`). -/
def get_symbols (M : MT5) : Except String Json × List Ev :=
  match M.symbols_get with
  | .error e => (.error e, [Ev.symbols_get])
  | .ok none => (.ok (errDict "No symbols found"), [Ev.symbols_get])
  | .ok (some symbols) =>
    let symbol_list :=
      (symbols.filter (fun s => s.visible && pyInStr "USD" s.name)).map symbolJson
    (.ok (.obj [("success", .bool true), ("symbols", .arr symbol_list)]),
     [Ev.symbols_get])

/-- The `tf_map` dict of `get_market_data`. -/
def tf_map : List (String × Int) :=
  [("M1", TIMEFRAME_M1), ("M5", TIMEFRAME_M5), ("M15", TIMEFRAME_M15),
   ("H1", TIMEFRAME_H1), ("H4", TIMEFRAME_H4), ("D1", TIMEFRAME_D1)]

/-- The per-bar dict built by `get_market_data` (`opn` models the source
field named `open`, a Lean keyword). -/
def rateJson (r : Rate) : Json :=
  .obj [("time", .num (r.time : ℚ)), ("open", .num r.opn),
        ("high", .num r.high), ("low", .num r.low), ("close", .num r.close),
        ("tick_volume", .num (r.tick_volume : ℚ)),
        ("spread", .num (r.spread : ℚ))]

/-- `get_market_data(symbol, timeframe, count)`: whole body in
`try/except`, so a raising native call becomes an error dict. -/
def get_market_data (M : MT5) (symbol timeframe : String) (count : Int) :
    Json × List Ev :=
  let timeframe_mt5 := (tf_map.lookup timeframe).getD TIMEFRAME_M1
  match M.copy_rates_from_pos symbol timeframe_mt5 0 count with
  | .error e => (errDict e, [Ev.copy_rates symbol timeframe_mt5 0 count])
  | .ok none =>
    (errDict ("Failed to get rates for " ++ symbol),
     [Ev.copy_rates symbol timeframe_mt5 0 count])
  | .ok (some rates) =>
    (.obj [("success", .bool true), ("data", .arr (rates.map rateJson))],
     [Ev.copy_rates symbol timeframe_mt5 0 count])

/-- `get_tick_data(symbol)`: whole body in `try/except`. -/
def get_tick_data (M : MT5) (symbol : String) : Json × List Ev :=
  match M.symbol_info_tick symbol with
  | .error e => (errDict e, [Ev.symbol_info_tick symbol])
  | .ok none =>
    (errDict ("Failed to get tick for " ++ symbol), [Ev.symbol_info_tick symbol])
  | .ok (some tick) =>
    (.obj [("success", .bool true),
           ("tick", .obj [("symbol", .str symbol), ("bid", .num tick.bid),
                          ("ask", .num tick.ask), ("last", .num tick.last),
                          ("volume", .num (tick.volume : ℚ)),
                          ("time", .num (tick.time : ℚ))])],
     [Ev.symbol_info_tick symbol])

/-- The `request` dict built by `place_order`: `price`, `sl`, `tp` are
inserted only when strictly positive. -/
def place_order_request (symbol : String) (order_type : Int)
    (volume price sl tp : ℚ) (comment : String) : TradeRequest :=
  { action := TRADE_ACTION_DEAL
    symbol := symbol
    volume := volume
    type := order_type
    comment := comment
    type_time := ORDER_TIME_GTC
    type_filling := ORDER_FILLING_IOC
    price := if price > 0 then some price else none
    sl := if sl > 0 then some sl else none
    tp := if tp > 0 then some tp else none
    position := none }

/-- `place_order(...)`: whole body in `try/except`; a `None` result from
`order_send` is checked explicitly. -/
def place_order (M : MT5) (symbol : String) (order_type : Int)
    (volume price sl tp : ℚ) (comment : String) : Json × List Ev :=
  let request := place_order_request symbol order_type volume price sl tp comment
  match M.order_send request with
  | .error e => (errDict e, [Ev.order_send request])
  | .ok none => (errDict "Order send failed", [Ev.order_send request])
  | .ok (some result) =>
    if result.retcode ≠ TRADE_RETCODE_DONE then
      (errDict ("Order failed: " ++ result.comment), [Ev.order_send request])
    else
      (.obj [("success", .bool true),
             ("order", .obj [("ticket", .num (result.order : ℚ)),
                             ("volume", .num result.volume),
                             ("price", .num result.price),
                             ("comment", .str result.comment)])],
       [Ev.order_send request])

/-- The per-position dict built by `get_positions`. -/
def positionJson (p : Position) : Json :=
  .obj [("ticket", .num (p.ticket : ℚ)), ("symbol", .str p.symbol),
        ("type", .num (p.type : ℚ)), ("volume", .num p.volume),
        ("price_open", .num p.price_open),
        ("price_current", .num p.price_current), ("profit", .num p.profit),
        ("swap", .num p.swap), ("commission", .num p.commission)]

/-- `get_positions()`: a `None` native result is success with an empty
list; whole body in `try/except`. -/
def get_positions (M : MT5) : Json × List Ev :=
  match M.positions_get with
  | .error e => (errDict e, [Ev.positions_get])
  | .ok none =>
    (.obj [("success", .bool true), ("positions", .arr [])], [Ev.positions_get])
  | .ok (some positions) =>
    (.obj [("success", .bool true),
           ("positions", .arr (positions.map positionJson))],
     [Ev.positions_get])

/-- The `close_request` dict `close_position` builds from the looked-up
position: inverse side, full volume, same symbol. -/
def close_request_of (position : Position) : TradeRequest :=
  { action := TRADE_ACTION_DEAL
    symbol := position.symbol
    volume := position.volume
    type := if position.type = ORDER_TYPE_BUY then ORDER_TYPE_SELL else ORDER_TYPE_BUY
    comment := "Position closed by trading bot"
    type_time := ORDER_TIME_GTC
    type_filling := ORDER_FILLING_IOC
    position := some position.ticket }

/-- `close_position(ticket)`: whole body in `try/except`.  Unlike
`place_order` it reads `result.retcode` without a `None` check, so a
`None` result from `order_send` raises `AttributeError`, caught by the
generic handler. -/
def close_position (M : MT5) (ticket : Int) : Json × List Ev :=
  match M.positions_get_ticket ticket with
  | .error e => (errDict e, [Ev.positions_get_ticket ticket])
  | .ok none =>
    -- `if not positions` is true for a `None` native result
    (errDict ("Position " ++ toString ticket ++ " not found"),
     [Ev.positions_get_ticket ticket])
  | .ok (some []) =>
    -- and for an empty tuple
    (errDict ("Position " ++ toString ticket ++ " not found"),
     [Ev.positions_get_ticket ticket])
  | .ok (some (position :: _)) =>
    let close_request := close_request_of position
    match M.order_send close_request with
    | .error e =>
      (errDict e, [Ev.positions_get_ticket ticket, Ev.order_send close_request])
    | .ok none =>
      -- result.retcode on None raises AttributeError, caught by the handler
      (errDict "'NoneType' object has no attribute 'retcode'",
       [Ev.positions_get_ticket ticket, Ev.order_send close_request])
    | .ok (some result) =>
      if result.retcode ≠ TRADE_RETCODE_DONE then
        (errDict ("Close failed: " ++ result.comment),
         [Ev.positions_get_ticket ticket, Ev.order_send close_request])
      else
        (.obj [("success", .bool true), ("closed_ticket", .num (ticket : ℚ))],
         [Ev.positions_get_ticket ticket, Ev.order_send close_request])

/-! ### Command Executor (`main` of `mt5_bridge.py`) -/

/-- Observable outcome of one `main` invocation: the JSON objects printed
to stdout, the native calls made, and the message of an exception that
escaped `main` (crashing the process), if any. -/
structure MainRes where
  printed : List Json
  trace : List Ev
  uncaught : Option String

/-- The `if/elif` dispatch inside `main`'s `try` block: parses the
command-specific positional arguments (which can raise) and runs one
adapter operation.  Returns the value printed on success, or the escaping
exception, plus the native calls made. -/
def mainDispatch (M : MT5) (argv : List String) (command : String)
    (connect_result : Json) : Except String Json × List Ev :=
  if command = "test_connection" then
    (.ok connect_result, [])
  else if command = "connect_with_credentials" then
    match argvGet argv 2 with
    | .error e => (.error e, [])
    | .ok login =>
      match argvGet argv 3 with
      | .error e => (.error e, [])
      | .ok password =>
        match argvGet argv 4 with
        | .error e => (.error e, [])
        | .ok server => connect_with_credentials M login password server
  else if command = "get_symbols" then
    get_symbols M
  else if command = "get_market_data" then
    let symbol := if argv.length > 2 then argv.getD 2 "" else "EURUSD"
    let timeframe := if argv.length > 3 then argv.getD 3 "" else "M1"
    match (if argv.length > 4 then pyInt (argv.getD 4 "") else .ok 100) with
    | .error e => (.error e, [])
    | .ok count =>
      let r := get_market_data M symbol timeframe count
      (.ok r.1, r.2)
  else if command = "get_tick" then
    let symbol := if argv.length > 2 then argv.getD 2 "" else "EURUSD"
    let r := get_tick_data M symbol
    (.ok r.1, r.2)
  else if command = "place_order" then
    match argvGet argv 2 with
    | .error e => (.error e, [])
    | .ok symbol =>
      match (argvGet argv 3).bind pyInt with
      | .error e => (.error e, [])
      | .ok order_type =>
        match (argvGet argv 4).bind pyFloat with
        | .error e => (.error e, [])
        | .ok volume =>
          match (if argv.length > 5 then pyFloat (argv.getD 5 "") else .ok 0) with
          | .error e => (.error e, [])
          | .ok price =>
            match (if argv.length > 6 then pyFloat (argv.getD 6 "") else .ok 0) with
            | .error e => (.error e, [])
            | .ok sl =>
              match (if argv.length > 7 then pyFloat (argv.getD 7 "") else .ok 0) with
              | .error e => (.error e, [])
              | .ok tp =>
                let comment := if argv.length > 8 then argv.getD 8 "" else ""
                let r := place_order M symbol order_type volume price sl tp comment
                (.ok r.1, r.2)
  else if command = "get_positions" then
    let r := get_positions M
    (.ok r.1, r.2)
  else if command = "close_position" then
    match (argvGet argv 2).bind pyInt with
    | .error e => (.error e, [])
    | .ok ticket =>
      let r := close_position M ticket
      (.ok r.1, r.2)
  else if command = "shutdown" then
    (.ok (.obj [("success", .bool true), ("message", .str "MT5 connection closed")]),
     [Ev.shutdown])
  else
    (.ok (errDict ("Unknown command: " ++ command)), [])

/-- The `try/finally` of `main`: run the dispatch, then `mt5.shutdown()`
whether or not it raised; a raise (the `error` case) escapes `main` after
the shutdown, a normal result is printed. -/
def cliMainBody (M : MT5) (argv : List String) (command : String)
    (connectRes : Json) (connectTr : List Ev) : MainRes :=
  match mainDispatch M argv command connectRes with
  | (.ok out, tr) =>
    { printed := [out], trace := connectTr ++ tr ++ [Ev.shutdown],
      uncaught := none }
  | (.error e, tr) =>
    { printed := [], trace := connectTr ++ tr ++ [Ev.shutdown],
      uncaught := some e }

/-- `main()` of the one-shot executor (named `cliMain` since `main` is
reserved in Lean).  The two early returns before the `try` perform no
shutdown. -/
def cliMain (M : MT5) (argv : List String) : MainRes :=
  if argv.length < 2 then
    { printed := [errDict "No command provided"], trace := [], uncaught := none }
  else
    let command := argv.getD 1 ""
    let connect := connect_mt5 M
    if ¬ connect.1.getSuccessFlag then
      { printed := [connect.1], trace := connect.2, uncaught := none }
    else
      cliMainBody M argv command connect.1 connect.2

/-! ### Session Server (`mt5_bridge_server.py`) -/

/-- The adapter methods as seen by `process_command`: each dispatch target
either returns a Python dict (`Except.ok`) or raises (`Except.error`).
Arity errors from `*args` unpacking are likewise raises of the called
operation.  The concrete methods of `MT5BridgeServer` are the functions
embedded above; `process_command`'s behaviour is proved for every
adapter. -/
structure ServerAdapter where
  connect_mt5 : Except String Json
  connect_with_credentials : Json → Except String Json
  get_symbols : Except String Json
  get_market_data : Json → Except String Json
  get_tick_data : Json → Except String Json
  place_order : Json → Except String Json
  get_positions : Except String Json
  close_position : Json → Except String Json
  shutdown_mt5 : Except String Json

/-- The `if command == ... / elif / else` chain of `process_command`,
for a command value that is a string (Python `==` between a non-string
and a string literal is `False`, handled in `dispatchServer`). -/
def dispatchByName (A : ServerAdapter) (s : String) (args : Json) :
    Except String Json :=
  if s = "test_connection" then A.connect_mt5
  else if s = "connect_with_credentials" then A.connect_with_credentials args
  else if s = "get_symbols" then A.get_symbols
  else if s = "get_market_data" then A.get_market_data args
  else if s = "get_tick" then A.get_tick_data args
  else if s = "place_order" then A.place_order args
  else if s = "get_positions" then A.get_positions
  else if s = "close_position" then A.close_position args
  else if s = "shutdown" then A.shutdown_mt5
  else .ok (errDict ("Unknown command: " ++ s))

/-- Dispatch on the raw `command` value from the envelope. -/
def dispatchServer (A : ServerAdapter) (command args : Json) :
    Except String Json :=
  match command with
  | .str s => dispatchByName A s args
  | c => .ok (errDict ("Unknown command: " ++ c.pyStr))

/-- `process_command(data)`: extracts `id`/`command`/`args` (before the
`try`, so a failure there propagates to `handle_client`), dispatches, and
wraps the result; the `try/except` converts a raise from the dispatch or
from `result.get("success", True)` into the `{id, success: False, error}`
envelope. -/
def process_command (A : ServerAdapter) (data : Json) : Except String Json :=
  match pyDictGet data "id" with
  | .error e => .error e
  | .ok command_id =>
    match pyDictGet data "command" with
    | .error e => .error e
    | .ok command =>
      match pyDictGetD data "args" (.arr []) with
      | .error e => .error e
      | .ok args =>
        let body : Except String Json :=
          match dispatchServer A command args with
          | .error e => .error e
          | .ok result =>
            match pyDictGetD result "success" (.bool true) with
            | .error e => .error e
            | .ok s =>
              .ok (.obj [("id", command_id), ("success", s), ("result", result)])
        match body with
        | .ok env => .ok env
        | .error e =>
          .ok (.obj [("id", command_id), ("success", .bool false),
                     ("error", .str e)])

/-- The response `handle_client` sends for a message that fails JSON
decoding. -/
def invalidJsonEnv : Json :=
  .obj [("id", .null), ("success", .bool false), ("error", .str "Invalid JSON format")]

/-- The receive loop of `handle_client`.  `json.loads` is the external
json library; an inbound message is modelled by its decode outcome:
`none` for a `JSONDecodeError`, `some data` for a decoded value.  Returns
the responses sent, and `true` when the handler itself raised (its
generic `except` branch re-raising on `data.get("id")`), which aborts the
connection.  -/
def handle_client (A : ServerAdapter) : List (Option Json) → List Json × Bool
  | [] => ([], false)
  | none :: rest =>
    let r := handle_client A rest
    (invalidJsonEnv :: r.1, r.2)
  | some data :: rest =>
    match process_command A data with
    | .ok resp =>
      let r := handle_client A rest
      (resp :: r.1, r.2)
    | .error e =>
      match pyDictGet data "id" with
      | .ok i =>
        let r := handle_client A rest
        ((.obj [("id", i), ("success", .bool false), ("error", .str e)]) :: r.1, r.2)
      | .error _ => ([], true)

/-! ### Sample data for witnesses and counterexamples -/

/-- A concrete account snapshot. -/
def sampleAccount : Account :=
  { login := 1, balance := 1000, equity := 1000, margin := 0,
    server := "Demo-Server", leverage := 100, currency := "USD" }

/-- A concrete open BUY position. -/
def samplePosition : Position :=
  { ticket := 7, symbol := "EURUSD", type := 0, volume := 2,
    price_open := 1, price_current := 1, profit := 0, swap := 0,
    commission := 0 }

/-- A healthy terminal with no open positions. -/
def sampleMT5 : MT5 :=
  { initOk := true
    lastError := "(1, Success)"
    account_info := some sampleAccount
    loginOk := fun _ _ _ => true
    symbols_get := .ok (some [])
    copy_rates_from_pos := fun _ _ _ _ => .ok (some [])
    symbol_info_tick := fun _ => .ok none
    order_send := fun _ => .ok none
    positions_get := .ok none
    positions_get_ticket := fun _ => .ok none }

/-- A terminal holding the sample position, whose `order_send` succeeds. -/
def closeMT5 : MT5 :=
  { sampleMT5 with
    positions_get_ticket := fun _ => .ok (some [samplePosition])
    order_send := fun _ =>
      .ok (some { retcode := 10009, comment := "done", order := 8,
                  volume := 2, price := 1 }) }

/-- A terminal holding the sample position, whose `order_send` returns
`None`. -/
def nullSendMT5 : MT5 :=
  { sampleMT5 with
    positions_get_ticket := fun _ => .ok (some [samplePosition]) }

/-- A terminal whose `symbols_get` raises. -/
def raisingMT5 : MT5 :=
  { sampleMT5 with symbols_get := .error "terminal fault" }

/-- An adapter all of whose operations succeed with a minimal dict. -/
def serverAdapterOk : ServerAdapter :=
  { connect_mt5 := .ok (.obj [("success", .bool true)])
    connect_with_credentials := fun _ => .ok (.obj [("success", .bool true)])
    get_symbols := .ok (.obj [("success", .bool true)])
    get_market_data := fun _ => .ok (.obj [("success", .bool true)])
    get_tick_data := fun _ => .ok (.obj [("success", .bool true)])
    place_order := fun _ => .ok (.obj [("success", .bool true)])
    get_positions := .ok (.obj [("success", .bool true)])
    close_position := fun _ => .ok (.obj [("success", .bool true)])
    shutdown_mt5 := .ok (.obj [("success", .bool true)]) }

/-- The fixed command table shared by both front-ends. -/
def knownCommands : List String :=
  ["test_connection", "connect_with_credentials", "get_symbols",
   "get_market_data", "get_tick", "place_order", "get_positions",
   "close_position", "shutdown"]

/-! ### Claim theorems -/

/-- C4: in the request `place_order` sends, each of the fields `price`,
`sl`, `tp` is present exactly when the corresponding input is strictly
positive (and then carries that input); non-positive inputs leave the
field absent. -/
theorem c4_place_order_optional_fields_iff_positive (M : MT5)
    (symbol : String) (order_type : Int) (volume price sl tp : ℚ)
    (comment : String) :
    (place_order M symbol order_type volume price sl tp comment).2
      = [Ev.order_send (place_order_request symbol order_type volume price sl tp comment)]
    ∧ (place_order_request symbol order_type volume price sl tp comment).price
      = (if 0 < price then some price else none)
    ∧ (place_order_request symbol order_type volume price sl tp comment).sl
      = (if 0 < sl then some sl else none)
    ∧ (place_order_request symbol order_type volume price sl tp comment).tp
      = (if 0 < tp then some tp else none) := by
  refine ⟨?_, rfl, rfl, rfl⟩
  cases h : M.order_send (place_order_request symbol order_type volume price sl tp comment) with
  | error e => simp [place_order, h]
  | ok o =>
    cases o with
    | none => simp [place_order, h]
    | some r =>
      by_cases hr : r.retcode = TRADE_RETCODE_DONE <;> simp [place_order, h, hr]

/-- C5: for a ticket whose lookup yields an open position, `close_position`
sends exactly one closing order, with the position's symbol, its full
volume, and the inverse side (BUY becomes SELL and SELL becomes BUY); for
a ticket whose lookup yields nothing, it reports a not-found error and
sends no order. -/
theorem c5_close_position_inverse_side_full_volume (M : MT5) (ticket : Int) :
    (∀ p rest, M.positions_get_ticket ticket = .ok (some (p :: rest)) →
      (close_position M ticket).2
        = [Ev.positions_get_ticket ticket, Ev.order_send (close_request_of p)]
      ∧ (close_request_of p).symbol = p.symbol
      ∧ (close_request_of p).volume = p.volume
      ∧ (p.type = ORDER_TYPE_BUY → (close_request_of p).type = ORDER_TYPE_SELL)
      ∧ (p.type = ORDER_TYPE_SELL → (close_request_of p).type = ORDER_TYPE_BUY))
    ∧ ((M.positions_get_ticket ticket = .ok none
        ∨ M.positions_get_ticket ticket = .ok (some [])) →
      (close_position M ticket).1
        = errDict ("Position " ++ toString ticket ++ " not found")
      ∧ (close_position M ticket).2 = [Ev.positions_get_ticket ticket]) := by
  constructor
  · intro p rest hpos
    refine ⟨?_, rfl, rfl, ?_, ?_⟩
    · cases hs : M.order_send (close_request_of p) with
      | error e => simp [close_position, hpos, hs]
      | ok o =>
        cases o with
        | none => simp [close_position, hpos, hs]
        | some r =>
          by_cases hr : r.retcode = TRADE_RETCODE_DONE <;>
            simp [close_position, hpos, hs, hr]
    · intro h
      simp [close_request_of, h]
    · intro h
      simp [close_request_of, h, ORDER_TYPE_SELL, ORDER_TYPE_BUY]
  · intro h
    rcases h with h | h <;> simp [close_position, h]

/-- C5 witness: on the sample BUY position the closing order is
SELL/EURUSD/volume 2, and on an absent ticket the not-found error with no
order sent. -/
theorem c5_witness :
    ((close_position closeMT5 7).2
        = [Ev.positions_get_ticket 7, Ev.order_send (close_request_of samplePosition)]
      ∧ (close_request_of samplePosition).symbol = samplePosition.symbol
      ∧ (close_request_of samplePosition).volume = samplePosition.volume
      ∧ (samplePosition.type = ORDER_TYPE_BUY
          → (close_request_of samplePosition).type = ORDER_TYPE_SELL)
      ∧ (samplePosition.type = ORDER_TYPE_SELL
          → (close_request_of samplePosition).type = ORDER_TYPE_BUY))
    ∧ ((close_position sampleMT5 8).1
        = errDict ("Position " ++ toString (8 : Int) ++ " not found")
      ∧ (close_position sampleMT5 8).2 = [Ev.positions_get_ticket 8]) :=
  ⟨(c5_close_position_inverse_side_full_volume closeMT5 7).1 samplePosition [] rfl,
   (c5_close_position_inverse_side_full_volume sampleMT5 8).2 (Or.inl rfl)⟩

/-- C6: an unrecognized timeframe string behaves exactly like "M1":
same response and same native calls. -/
theorem c6_get_market_data_unknown_timeframe_is_M1 (M : MT5)
    (symbol tf : String) (count : Int)
    (h : tf ∉ ["M1", "M5", "M15", "H1", "H4", "D1"]) :
    get_market_data M symbol tf count = get_market_data M symbol "M1" count := by
  simp only [List.mem_cons, List.not_mem_nil, or_false, not_or] at h
  obtain ⟨h1, h2, h3, h4, h5, h6⟩ := h
  unfold get_market_data
  have hl : tf_map.lookup tf = none := by
    simp [tf_map, List.lookup, beq_eq_false_iff_ne.mpr h1,
      beq_eq_false_iff_ne.mpr h2, beq_eq_false_iff_ne.mpr h3,
      beq_eq_false_iff_ne.mpr h4, beq_eq_false_iff_ne.mpr h5,
      beq_eq_false_iff_ne.mpr h6]
  have hm : tf_map.lookup "M1" = some TIMEFRAME_M1 := by
    simp [tf_map, List.lookup]
  rw [hl, hm]
  rfl

/-- C6 witness: the unrecognized "X1" gives the same result as "M1" on
the sample terminal. -/
theorem c6_witness :
    get_market_data sampleMT5 "EURUSD" "X1" 100
      = get_market_data sampleMT5 "EURUSD" "M1" 100 :=
  c6_get_market_data_unknown_timeframe_is_M1 sampleMT5 "EURUSD" "X1" 100
    (by decide)

/-- C7: when the terminal reports no open positions, whether as `None` or
as an empty collection, `get_positions` returns the success envelope with
an empty position list. -/
theorem c7_get_positions_empty_is_success (M : MT5)
    (h : M.positions_get = .ok none ∨ M.positions_get = .ok (some [])) :
    (get_positions M).1
      = .obj [("success", .bool true), ("positions", .arr [])] := by
  rcases h with h | h <;> simp [get_positions, h]

/-- C7 witness: the sample terminal (positions `None`) yields the empty
success envelope. -/
theorem c7_witness :
    (get_positions sampleMT5).1
      = .obj [("success", .bool true), ("positions", .arr [])] :=
  c7_get_positions_empty_is_success sampleMT5 (Or.inl rfl)

/-- C10: when the position lookup succeeds but `order_send` returns a
`None` result, `close_position` still returns a `success: False` dict,
whose text is the `AttributeError` message from the generic handler
(`result.retcode` on `None`); `place_order`, by contrast, checks the
`None` result explicitly and reports "Order send failed". -/
theorem c10_close_position_null_send_generic_handler (M : MT5) (ticket : Int)
    (p : Position) (rest : List Position)
    (hpos : M.positions_get_ticket ticket = .ok (some (p :: rest)))
    (hsend : M.order_send (close_request_of p) = .ok none) :
    (close_position M ticket).1
      = errDict "'NoneType' object has no attribute 'retcode'"
    ∧ ∀ (M2 : MT5) (symbol : String) (order_type : Int)
        (volume price sl tp : ℚ) (comment : String),
        M2.order_send (place_order_request symbol order_type volume price sl tp comment)
          = .ok none →
        (place_order M2 symbol order_type volume price sl tp comment).1
          = errDict "Order send failed" := by
  constructor
  · simp [close_position, hpos, hsend]
  · intro M2 symbol order_type volume price sl tp comment h2
    simp [place_order, h2]

/-- The first alternative claimed for every response envelope: a result
payload with a true success flag and no top-level error. -/
def envResultSuccess (env : Json) : Prop :=
  env.lookupKey "success" = some (.bool true)
  ∧ (∃ r, env.lookupKey "result" = some r)
  ∧ env.lookupKey "error" = none

/-- The second alternative claimed for every response envelope: a
non-empty top-level error with a false success flag and no result. -/
def envTopLevelError (env : Json) : Prop :=
  env.lookupKey "success" = some (.bool false)
  ∧ (∃ e, e ≠ "" ∧ env.lookupKey "error" = some (.str e))
  ∧ env.lookupKey "result" = none

/-- The claimed invariant: exactly one of the two alternatives. -/
def envExactlyOneOf (env : Json) : Prop :=
  (envResultSuccess env ∨ envTopLevelError env)
  ∧ ¬ (envResultSuccess env ∧ envTopLevelError env)

/-- C1 counterexample: an unknown command (any operation-level failure
behaves the same) yields the envelope `{id, success: False, result:
{success: False, error: ...}}` — a false success flag together with a
result payload and no top-level error, which is neither of the claimed
alternatives. -/
theorem c1_counterexample :
    process_command serverAdapterOk
        (.obj [("id", .num 1), ("command", .str "frobnicate")])
      = .ok (.obj [("id", .num 1), ("success", .bool false),
                   ("result", errDict "Unknown command: frobnicate")])
    ∧ ¬ envExactlyOneOf
        (.obj [("id", .num 1), ("success", .bool false),
               ("result", errDict "Unknown command: frobnicate")]) := by
  constructor
  · rfl
  · intro hcl
    rcases hcl.1 with h | h
    · have hs := h.1
      rw [show Json.lookupKey
            (.obj [("id", .num 1), ("success", .bool false),
                   ("result", errDict "Unknown command: frobnicate")]) "success"
          = some (.bool false) from rfl] at hs
      simp at hs
    · rcases h.2.1 with ⟨e, _, he⟩
      rw [show Json.lookupKey
            (.obj [("id", .num 1), ("success", .bool false),
                   ("result", errDict "Unknown command: frobnicate")]) "error"
          = none from rfl] at he
      simp at he

/-- C1 amended: every envelope `process_command` returns (it never
raises past the extraction of `id`/`command`/`args`) is exactly one of
`{id, success, result}` — where the top-level flag mirrors the dispatched
result's own `success` field (default true), so an operation-level
failure travels inside `result` with `success: False` and no top-level
error — or `{id, success: False, error}` when the dispatch raised; no
envelope carries both a result and a top-level error. -/
theorem c1_amended_envelope_shape (A : ServerAdapter) (data env : Json)
    (h : process_command A data = .ok env) :
    ((∃ i s r, env = .obj [("id", i), ("success", s), ("result", r)]
        ∧ pyDictGetD r "success" (.bool true) = .ok s)
     ∨ (∃ i e, env = .obj [("id", i), ("success", .bool false),
                           ("error", .str e)]))
    ∧ ¬ ((∃ r, env.lookupKey "result" = some r)
         ∧ (∃ e, env.lookupKey "error" = some e)) := by
  unfold process_command at h
  cases hid : pyDictGet data "id" with
  | error e => rw [hid] at h; exact absurd h (by simp)
  | ok command_id =>
    rw [hid] at h
    cases hcmd : pyDictGet data "command" with
    | error e => rw [hcmd] at h; exact absurd h (by simp)
    | ok command =>
      rw [hcmd] at h
      cases hargs : pyDictGetD data "args" (.arr []) with
      | error e => rw [hargs] at h; exact absurd h (by simp)
      | ok args =>
        rw [hargs] at h
        simp only at h
        cases hdis : dispatchServer A command args with
        | error e =>
          rw [hdis] at h
          simp only [Except.ok.injEq] at h
          subst h
          refine ⟨Or.inr ⟨command_id, e, rfl⟩, ?_⟩
          rintro ⟨⟨r, hr⟩, -⟩
          rw [show Json.lookupKey
                (.obj [("id", command_id), ("success", .bool false),
                       ("error", .str e)]) "result" = none from rfl] at hr
          simp at hr
        | ok result =>
          rw [hdis] at h
          simp only at h
          cases hsuc : pyDictGetD result "success" (.bool true) with
          | error e =>
            rw [hsuc] at h
            simp only [Except.ok.injEq] at h
            subst h
            refine ⟨Or.inr ⟨command_id, e, rfl⟩, ?_⟩
            rintro ⟨⟨r, hr⟩, -⟩
            rw [show Json.lookupKey
                  (.obj [("id", command_id), ("success", .bool false),
                         ("error", .str e)]) "result" = none from rfl] at hr
            simp at hr
          | ok s =>
            rw [hsuc] at h
            simp only [Except.ok.injEq] at h
            subst h
            refine ⟨Or.inl ⟨command_id, s, result, rfl, hsuc⟩, ?_⟩
            rintro ⟨-, ⟨e, he⟩⟩
            rw [show Json.lookupKey
                  (.obj [("id", command_id), ("success", s),
                         ("result", result)]) "error" = none from rfl] at he
            simp at he

/-- C1 amended witness: the unknown-command envelope instantiates the
first alternative with a false inner success flag. -/
theorem c1_witness :
    ((∃ i s r,
        (Json.obj [("id", .num 1), ("success", .bool false),
                   ("result", errDict "Unknown command: frobnicate")])
          = .obj [("id", i), ("success", s), ("result", r)]
        ∧ pyDictGetD r "success" (.bool true) = .ok s)
     ∨ (∃ i e,
        (Json.obj [("id", .num 1), ("success", .bool false),
                   ("result", errDict "Unknown command: frobnicate")])
          = .obj [("id", i), ("success", .bool false), ("error", .str e)]))
    ∧ ¬ ((∃ r, Json.lookupKey
            (.obj [("id", .num 1), ("success", .bool false),
                   ("result", errDict "Unknown command: frobnicate")]) "result"
            = some r)
         ∧ (∃ e, Json.lookupKey
            (.obj [("id", .num 1), ("success", .bool false),
                   ("result", errDict "Unknown command: frobnicate")]) "error"
            = some e)) :=
  c1_amended_envelope_shape serverAdapterOk
    (.obj [("id", .num 1), ("command", .str "frobnicate")])
    (.obj [("id", .num 1), ("success", .bool false),
           ("result", errDict "Unknown command: frobnicate")]) rfl

/-- C10 witness: the sample position with a `None`-returning `order_send`
produces the `AttributeError` text, and `place_order` there produces
"Order send failed". -/
theorem c10_witness :
    (close_position nullSendMT5 7).1
      = errDict "'NoneType' object has no attribute 'retcode'"
    ∧ (place_order nullSendMT5 "EURUSD" 0 1 0 0 0 "").1
      = errDict "Order send failed" :=
  ⟨(c10_close_position_null_send_generic_handler nullSendMT5 7 samplePosition []
      rfl rfl).1,
   (c10_close_position_null_send_generic_handler nullSendMT5 7 samplePosition []
      rfl rfl).2 nullSendMT5 "EURUSD" 0 1 0 0 0 "" rfl⟩


/-- C8: a message that fails JSON decoding is answered on the same
connection with exactly `{id: None, success: False, error: "Invalid JSON
format"}`, and the connection is not closed: the messages after it are
processed exactly as they would be on their own. -/
theorem c8_invalid_json_response_and_connection_survives (A : ServerAdapter)
    (pre post : List (Option Json))
    (hpre : (handle_client A pre).2 = false) :
    handle_client A (pre ++ none :: post)
      = ((handle_client A pre).1 ++ invalidJsonEnv :: (handle_client A post).1,
         (handle_client A post).2) := by
  induction pre with
  | nil => simp [handle_client]
  | cons m rest ih =>
    cases m with
    | none =>
      have hr : (handle_client A rest).2 = false := by
        simpa [handle_client] using hpre
      simp [handle_client, ih hr]
    | some d =>
      cases hp : process_command A d with
      | ok resp =>
        have hr : (handle_client A rest).2 = false := by
          simpa [handle_client, hp] using hpre
        simp [handle_client, hp, ih hr]
      | error e =>
        cases hi : pyDictGet d "id" with
        | ok i =>
          have hr : (handle_client A rest).2 = false := by
            simpa [handle_client, hp, hi] using hpre
          simp [handle_client, hp, hi, ih hr]
        | error e2 =>
          simp [handle_client, hp, hi] at hpre

/-- C8 witness: a single malformed message on a fresh connection yields
exactly the invalid-JSON envelope and leaves the connection alive. -/
theorem c8_witness :
    handle_client serverAdapterOk ([] ++ none :: [])
      = ((handle_client serverAdapterOk []).1
          ++ invalidJsonEnv :: (handle_client serverAdapterOk []).1,
         (handle_client serverAdapterOk []).2) :=
  c8_invalid_json_response_and_connection_survives serverAdapterOk [] [] rfl

/-- C9: a command name outside the fixed table makes both front-ends
answer a success-false envelope carrying the text "Unknown command:
name" without raising; the server's response is a fixed value performing
no terminal operation, and the executor's native-call trace is exactly
the implicit connect followed by its unconditional lifecycle shutdown —
no adapter operation is dispatched. -/
theorem c9_unknown_command_both_front_ends :
    (∀ (A : ServerAdapter) (i args : Json) (name : String),
      name ∉ knownCommands →
      process_command A (.obj [("id", i), ("command", .str name), ("args", args)])
        = .ok (.obj [("id", i), ("success", .bool false),
                     ("result", errDict ("Unknown command: " ++ name))]))
    ∧ (∀ (M : MT5) (prog name : String) (rest : List String) (a : Account),
      name ∉ knownCommands → M.initOk = true → M.account_info = some a →
      cliMain M (prog :: name :: rest)
        = { printed := [errDict ("Unknown command: " ++ name)],
            trace := [Ev.init, Ev.account_info, Ev.shutdown],
            uncaught := none }) := by
  constructor
  · intro A i args name h
    simp only [knownCommands, List.mem_cons, List.not_mem_nil, or_false,
      not_or] at h
    obtain ⟨h1, h2, h3, h4, h5, h6, h7, h8, h9⟩ := h
    have hd : dispatchServer A (.str name) args
        = .ok (errDict ("Unknown command: " ++ name)) := by
      simp [dispatchServer, dispatchByName, h1, h2, h3, h4, h5, h6, h7, h8, h9]
    simp [process_command, pyDictGet, pyDictGetD, List.lookup, hd, errDict]
  · intro M prog name rest a h hinit hacc
    simp only [knownCommands, List.mem_cons, List.not_mem_nil, or_false,
      not_or] at h
    obtain ⟨h1, h2, h3, h4, h5, h6, h7, h8, h9⟩ := h
    have hc : connect_mt5 M
        = (.obj [("success", .bool true), ("account", accountJson a)],
           [Ev.init, Ev.account_info]) := by
      simp [connect_mt5, hinit, hacc]
    simp only [cliMain, hc]
    rw [if_neg (by simp only [List.length_cons]; omega),
      if_neg (fun hn => hn rfl)]
    simp [cliMainBody, mainDispatch, h1, h2, h3, h4, h5, h6, h7, h8, h9]

/-- C9 witness: the unrecognized command "frobnicate" on both front-ends,
with the sample terminal on the executor side. -/
theorem c9_witness :
    process_command serverAdapterOk
        (.obj [("id", .num 1), ("command", .str "frobnicate"), ("args", .arr [])])
      = .ok (.obj [("id", .num 1), ("success", .bool false),
                   ("result", errDict ("Unknown command: " ++ "frobnicate"))])
    ∧ cliMain sampleMT5 ["bridge", "frobnicate"]
      = { printed := [errDict ("Unknown command: " ++ "frobnicate")],
          trace := [Ev.init, Ev.account_info, Ev.shutdown],
          uncaught := none } :=
  ⟨c9_unknown_command_both_front_ends.1 serverAdapterOk (.num 1) (.arr [])
      "frobnicate" (by decide),
   c9_unknown_command_both_front_ends.2 sampleMT5 "bridge" "frobnicate" []
      sampleAccount (by decide) rfl rfl⟩

/-- A terminal whose initialization fails. -/
def downMT5 : MT5 :=
  { sampleMT5 with initOk := false }

/-- C2 counterexample: on the no-command path and on the
implicit-connect-failure path, `main` returns without any `shutdown`
call (the `try/finally` only begins after a successful connect). -/
theorem c2_counterexample :
    ((cliMain sampleMT5 ["bridge"]).trace = []
      ∧ Ev.shutdown ∉ (cliMain sampleMT5 ["bridge"]).trace)
    ∧ ((cliMain downMT5 ["bridge", "get_positions"]).trace = [Ev.init]
      ∧ Ev.shutdown ∉ (cliMain downMT5 ["bridge", "get_positions"]).trace) :=
  ⟨⟨rfl, by decide⟩, ⟨rfl, by decide⟩⟩

/-- C2 amended: `mt5.shutdown()` is guaranteed on every exit path that
reaches the command dispatch — for every command, argument list and
terminal behaviour, including a dispatched operation raising — but the
no-command and connect-failure early returns exit without it. -/
theorem c2_amended_shutdown_after_successful_connect (M : MT5)
    (argv : List String) (a : Account) (h2 : 2 ≤ argv.length)
    (hinit : M.initOk = true) (hacc : M.account_info = some a) :
    Ev.shutdown ∈ (cliMain M argv).trace := by
  have hlt : ¬ argv.length < 2 := by omega
  have hc : connect_mt5 M
      = (.obj [("success", .bool true), ("account", accountJson a)],
         [Ev.init, Ev.account_info]) := by
    simp [connect_mt5, hinit, hacc]
  have hbody : ∀ (cmd : String) (cres : Json) (ctr : List Ev),
      Ev.shutdown ∈ (cliMainBody M argv cmd cres ctr).trace := by
    intro cmd cres ctr
    cases hd : mainDispatch M argv cmd cres with
    | mk b tr =>
      cases b with
      | ok out => simp [cliMainBody, hd, List.mem_append]
      | error e => simp [cliMainBody, hd, List.mem_append]
  simp only [cliMain, hc]
  rw [if_neg hlt, if_neg (fun hn => hn rfl)]
  exact hbody _ _ _

/-- C2 amended witness: a dispatched command on a healthy terminal always
reaches the final shutdown. -/
theorem c2_witness :
    Ev.shutdown ∈ (cliMain sampleMT5 ["bridge", "get_positions"]).trace :=
  c2_amended_shutdown_after_successful_connect sampleMT5
    ["bridge", "get_positions"] sampleAccount (by decide) rfl rfl

/-- C3 counterexample: `get_symbols` has no internal handler and `main`
has no `except`, so a raising `mt5.symbols_get()` crashes the executor —
the exception escapes and no envelope is printed. -/
theorem c3_counterexample :
    (cliMain raisingMT5 ["bridge", "get_symbols"]).uncaught
      = some "terminal fault"
    ∧ (cliMain raisingMT5 ["bridge", "get_symbols"]).printed = [] :=
  ⟨rfl, rfl⟩

/-- C3 amended: the Session Server catches every dispatch failure (on any
dict-shaped message `process_command` never raises), and each executor
operation wrapped in `try/except` (market data, tick, order placement,
position listing, position close) converts a raising native call into a
`success: False` dict — but the Command Executor itself has no top-level
handler: an exception raised by an unguarded operation such as
`get_symbols` propagates past the `finally` shutdown and crashes the
process with nothing printed. -/
theorem c3_amended_failures_caught_except_unguarded_cli :
    (∀ (A : ServerAdapter) (fields : List (String × Json)) (e : String),
      process_command A (.obj fields) ≠ .error e)
    ∧ (∀ (M : MT5) (symbol tf : String) (count : Int) (e : String),
      M.copy_rates_from_pos symbol ((tf_map.lookup tf).getD TIMEFRAME_M1) 0 count
          = .error e →
      (get_market_data M symbol tf count).1 = errDict e)
    ∧ (∀ (M : MT5) (symbol : String) (e : String),
      M.symbol_info_tick symbol = .error e →
      (get_tick_data M symbol).1 = errDict e)
    ∧ (∀ (M : MT5) (symbol : String) (order_type : Int)
        (volume price sl tp : ℚ) (comment : String) (e : String),
      M.order_send (place_order_request symbol order_type volume price sl tp comment)
          = .error e →
      (place_order M symbol order_type volume price sl tp comment).1 = errDict e)
    ∧ (∀ (M : MT5) (e : String), M.positions_get = .error e →
      (get_positions M).1 = errDict e)
    ∧ (∀ (M : MT5) (ticket : Int) (e : String),
      M.positions_get_ticket ticket = .error e →
      (close_position M ticket).1 = errDict e)
    ∧ (∀ (M : MT5) (prog : String) (rest : List String) (a : Account) (e : String),
      M.initOk = true → M.account_info = some a → M.symbols_get = .error e →
      cliMain M (prog :: "get_symbols" :: rest)
        = { printed := [],
            trace := [Ev.init, Ev.account_info, Ev.symbols_get, Ev.shutdown],
            uncaught := some e }) := by
  refine ⟨?_, ?_, ?_, ?_, ?_, ?_, ?_⟩
  · intro A fields e h
    cases hd : dispatchServer A ((List.lookup "command" fields).getD .null)
        ((List.lookup "args" fields).getD (.arr [])) with
    | error e2 => simp [process_command, pyDictGet, pyDictGetD, hd] at h
    | ok result =>
      cases hs : pyDictGetD result "success" (.bool true) with
      | error e2 =>
        simp [process_command, pyDictGet, hd, hs,
          show pyDictGetD (Json.obj fields) "args" (Json.arr [])
            = Except.ok ((fields.lookup "args").getD (Json.arr [])) from rfl] at h
      | ok s =>
        simp [process_command, pyDictGet, hd, hs,
          show pyDictGetD (Json.obj fields) "args" (Json.arr [])
            = Except.ok ((fields.lookup "args").getD (Json.arr [])) from rfl] at h
  · intro M symbol tf count e h
    simp [get_market_data, h]
  · intro M symbol e h
    simp [get_tick_data, h]
  · intro M symbol order_type volume price sl tp comment e h
    simp [place_order, h]
  · intro M e h
    simp [get_positions, h]
  · intro M ticket e h
    simp [close_position, h]
  · intro M prog rest a e hinit hacc hsym
    have hc : connect_mt5 M
        = (.obj [("success", .bool true), ("account", accountJson a)],
           [Ev.init, Ev.account_info]) := by
      simp [connect_mt5, hinit, hacc]
    simp only [cliMain, hc]
    rw [if_neg (by simp only [List.length_cons]; omega),
      if_neg (fun hn => hn rfl)]
    simp [cliMainBody, mainDispatch, get_symbols, hsym]

/-- C3 amended witness: each part at a concrete input — the server on an
empty dict, the five guarded operations on raising terminals, and the
executor crash on a raising `get_symbols`. -/
theorem c3_witness :
    process_command serverAdapterOk (.obj []) ≠ .error "boom"
    ∧ (get_market_data { sampleMT5 with
          copy_rates_from_pos := fun _ _ _ _ => .error "boom" }
        "EURUSD" "M1" 100).1 = errDict "boom"
    ∧ (get_tick_data { sampleMT5 with
          symbol_info_tick := fun _ => .error "boom" } "EURUSD").1
        = errDict "boom"
    ∧ (place_order { sampleMT5 with order_send := fun _ => .error "boom" }
        "EURUSD" 0 1 0 0 0 "").1 = errDict "boom"
    ∧ (get_positions { sampleMT5 with positions_get := .error "boom" }).1
        = errDict "boom"
    ∧ (close_position { sampleMT5 with
          positions_get_ticket := fun _ => .error "boom" } 7).1 = errDict "boom"
    ∧ cliMain raisingMT5 ["bridge", "get_symbols"]
        = { printed := [],
            trace := [Ev.init, Ev.account_info, Ev.symbols_get, Ev.shutdown],
            uncaught := some "terminal fault" } :=
  ⟨c3_amended_failures_caught_except_unguarded_cli.1 serverAdapterOk [] "boom",
   c3_amended_failures_caught_except_unguarded_cli.2.1 _ "EURUSD" "M1" 100 "boom" rfl,
   c3_amended_failures_caught_except_unguarded_cli.2.2.1 _ "EURUSD" "boom" rfl,
   c3_amended_failures_caught_except_unguarded_cli.2.2.2.1 _ "EURUSD" 0 1 0 0 0 "" "boom" rfl,
   c3_amended_failures_caught_except_unguarded_cli.2.2.2.2.1 _ "boom" rfl,
   c3_amended_failures_caught_except_unguarded_cli.2.2.2.2.2.1 _ 7 "boom" rfl,
   c3_amended_failures_caught_except_unguarded_cli.2.2.2.2.2.2 raisingMT5
     "bridge" [] sampleAccount "terminal fault" rfl rfl rfl⟩
